import Mathlib

/-!
Shallow embedding of the todo-backend service (src/app/main.py, the richest
revision) and proofs about its request handlers.

Modelling conventions:
* `datetime` values are modelled as seconds on a linear time scale
  (`DateTime := Nat`), computed from civil dates by `toSecs`; Python datetime
  comparison agrees with `Nat` comparison on this linearization.
* The relational store is a `Store` record of lists; SQL `OFFSET`/`LIMIT`
  follow SQLite semantics (`sqlDrop`/`sqlTake`: a negative offset acts as 0,
  a negative limit returns everything).
* A handler outcome is a `Result`: `ok` (HTTP 200 body), `httpErr`
  (a raised `HTTPException` with status and detail), or `pyErr` (an uncaught
  Python exception, surfaced by the framework as HTTP 500).
* `datetime.strptime` for the two formats used by the code is embedded as
  `strptimeYmdH` / `strptimeYmd`, following CPython's `_strptime` regexes
  (`%Y` exactly four digits; `%m`, `%d`, `%H` one or two digits with the
  documented alternative order and backtracking; whitespace in the format
  matches a whitespace run `\s+`; trailing unconverted data is an error; the
  `datetime` constructor then validates day-of-month and year).
-/

namespace TodoApp

/-- Time instants, as seconds on a linear scale (see `toSecs`). -/
abbrev DateTime := Nat

/-- Importance enum from main.py (int-valued). -/
inductive Importance where
  | NONE
  | LOW
  | MIDDLE
  | HIGH
deriving DecidableEq, Repr

/-- Integer value of an `Importance`, as stored in the todos table. -/
def Importance.value : Importance → Nat
  | .NONE => 0
  | .LOW => 1
  | .MIDDLE => 2
  | .HIGH => 3

/-- Row of the `users` table (`UserModel` in main.py). -/
structure UserModel where
  id : Nat
  user_name : String
  pwd : String
deriving DecidableEq, Repr

/-- Row of the `tags` table (`TagModel`): `user` is the owning user's id. -/
structure TagModel where
  id : Nat
  name : String
  color : String
  user : Nat
deriving DecidableEq, Repr

/-- Row of the `todos` table (`TodoModel`): `user` is the owning user's id,
`importance` the stored integer value of the enum. -/
structure TodoModel where
  id : Nat
  item : String
  create_time : DateTime
  plan_time : Option DateTime
  content : Option String
  user : Nat
  importance : Nat
deriving DecidableEq, Repr

/-- The relational store: the four tables (`links` is the todo-tag
many-to-many join, as pairs `(todo id, tag id)`) plus the autoincrement
counters for the two tables our handlers insert into. -/
structure Store where
  users : List UserModel
  todos : List TodoModel
  tags : List TagModel
  links : List (Nat × Nat)
  nextUserId : Nat
  nextTagId : Nat
deriving DecidableEq, Repr

/-- Public user view (`User` response schema in main.py): id and user_name
only, no password field exists in this type. -/
structure User where
  id : Nat
  user_name : String
deriving DecidableEq, Repr

/-- Body of POST /create_user/ (`UserDto`). -/
structure UserDto where
  user_name : String
  pwd : String
deriving DecidableEq, Repr

/-- Body of POST /create_tag/ (`TagDto`); pydantic enforces that `color` is
exactly 7 characters. -/
structure TagDto where
  user_id : Nat
  todo_id : Nat
  name : String
  color : String
deriving DecidableEq, Repr

/-- Body of POST /update_todos/{todo_id} (`UpdateTodoDto`). The pydantic
validator turns a non-empty `plan_time` string into a parsed datetime and
leaves the empty string as is; the handler then tests truthiness, so the
field is embedded as `Option DateTime` (`none` is the empty string). -/
structure UpdateTodoDto where
  item : String
  plan_time : Option DateTime
  content : String
  importance : Importance
deriving DecidableEq, Repr

/-- Outcome of one request: a 200 body, a raised HTTPException, or an
uncaught Python exception (which FastAPI surfaces as HTTP 500). -/
inductive Result (α : Type) where
  | ok (value : α)
  | httpErr (status : Nat) (detail : String)
  | pyErr (msg : String)
deriving DecidableEq, Repr

/-- HTTP status of a result, when the handler raised an HTTPException. -/
def Result.statusOf : Result α → Option Nat
  | .ok _ => none
  | .httpErr st _ => some st
  | .pyErr _ => none

/-- Pagination envelope (`PaginateModel`). -/
structure Paginate (α : Type) where
  page : Int
  per_page : Int
  total_items : Nat
  items : List α
deriving DecidableEq, Repr

/-- SQL OFFSET with SQLite semantics: a negative offset behaves as 0
(`Int.toNat` sends negatives to 0). -/
def sqlDrop (off : Int) (l : List α) : List α := l.drop off.toNat

/-- SQL LIMIT with SQLite semantics: a negative limit returns all rows. -/
def sqlTake (lim : Int) (l : List α) : List α :=
  if lim < 0 then l else l.take lim.toNat

/-- Case-insensitive substring test, embedding the `icontains` lookup
(SQL `LIKE` on lowered operands). -/
def strContainsCI (haystack needle : String) : Bool :=
  let h := haystack.toLower.data
  let n := needle.toLower.data
  (List.range (h.length + 1)).any fun i => n.isPrefixOf (h.drop i)

/-- Insert a todo into a list sorted by `create_time` ascending. -/
def insertByCreate (t : TodoModel) : List TodoModel → List TodoModel
  | [] => [t]
  | u :: us =>
    if t.create_time ≤ u.create_time then t :: u :: us
    else u :: insertByCreate t us

/-- Sort todos by `create_time` ascending (`order_by(create_time.asc())`). -/
def sortByCreate : List TodoModel → List TodoModel
  | [] => []
  | t :: ts => insertByCreate t (sortByCreate ts)

/-- Numeric value of a decimal digit character, if it is one. -/
def digitVal (c : Char) : Option Nat :=
  if '0' ≤ c ∧ c ≤ '9' then some (c.toNat - '0'.toNat) else none

/-- Match `%Y`: exactly four digits (CPython regex `\d\d\d\d`). -/
def parse4Digits : List Char → Option (Nat × List Char)
  | a :: b :: c :: d :: rest =>
    match digitVal a, digitVal b, digitVal c, digitVal d with
    | some x, some y, some z, some w => some (((x * 10 + y) * 10 + z) * 10 + w, rest)
    | _, _, _, _ => none
  | _ => none

/-- Match a literal character. -/
def litChar (c : Char) : List Char → Option (List Char)
  | x :: rest => if x = c then some rest else none
  | [] => none

/-- Candidates for `%m`, in CPython's alternative order
`1[0-2]|0[1-9]|[1-9]` (two-digit forms tried before one-digit). -/
def monthCands : List Char → List (Nat × List Char)
  | a :: b :: rest =>
    (if a = '1' ∧ ('0' ≤ b ∧ b ≤ '2') then [(10 + (b.toNat - '0'.toNat), rest)] else [])
    ++ (if a = '0' ∧ ('1' ≤ b ∧ b ≤ '9') then [(b.toNat - '0'.toNat, rest)] else [])
    ++ (if '1' ≤ a ∧ a ≤ '9' then [(a.toNat - '0'.toNat, b :: rest)] else [])
  | [a] => if '1' ≤ a ∧ a ≤ '9' then [(a.toNat - '0'.toNat, [])] else []
  | [] => []

/-- Candidates for `%d`, regex `3[01]|[12]\d|0[1-9]|[1-9]`. -/
def dayCands : List Char → List (Nat × List Char)
  | a :: b :: rest =>
    (if a = '3' ∧ ('0' ≤ b ∧ b ≤ '1') then [(30 + (b.toNat - '0'.toNat), rest)] else [])
    ++ (if ('1' ≤ a ∧ a ≤ '2') ∧ ('0' ≤ b ∧ b ≤ '9') then
          [((a.toNat - '0'.toNat) * 10 + (b.toNat - '0'.toNat), rest)] else [])
    ++ (if a = '0' ∧ ('1' ≤ b ∧ b ≤ '9') then [(b.toNat - '0'.toNat, rest)] else [])
    ++ (if '1' ≤ a ∧ a ≤ '9' then [(a.toNat - '0'.toNat, b :: rest)] else [])
  | [a] => if '1' ≤ a ∧ a ≤ '9' then [(a.toNat - '0'.toNat, [])] else []
  | [] => []

/-- Whitespace character class of Python's `re` `\s` for str patterns
(Unicode): ASCII whitespace, the file/group/record/unit separators, NEL,
NBSP and the Unicode space characters. -/
def isSpaceChar (c : Char) : Bool :=
  c = ' ' || c = '\t' || c = '\n' || c = '\r' || c = '\x0b' || c = '\x0c'
  || c = '\x1c' || c = '\x1d' || c = '\x1e' || c = '\x1f' || c = '\x85' || c = '\xa0'
  || c = '\u1680' || ('\u2000' ≤ c && c ≤ '\u200a') || c = '\u2028' || c = '\u2029'
  || c = '\u202f' || c = '\u205f' || c = '\u3000'

/-- Match a whitespace run: CPython's `_strptime` compiles whitespace in the
format to `\s+`, one or more whitespace characters. Greedy consumption is
exact here because the token following the run (`%H`) starts with a digit,
which is never whitespace, so regex backtracking into the run can never
produce a match the greedy parse misses. -/
def wsRun1 : List Char → Option (List Char)
  | c :: rest => if isSpaceChar c then some (rest.dropWhile isSpaceChar) else none
  | [] => none

/-- Candidates for `%H`, regex `2[0-3]|[0-1]\d|\d`. -/
def hourCands : List Char → List (Nat × List Char)
  | a :: b :: rest =>
    (if a = '2' ∧ ('0' ≤ b ∧ b ≤ '3') then [(20 + (b.toNat - '0'.toNat), rest)] else [])
    ++ (if ('0' ≤ a ∧ a ≤ '1') ∧ ('0' ≤ b ∧ b ≤ '9') then
          [((a.toNat - '0'.toNat) * 10 + (b.toNat - '0'.toNat), rest)] else [])
    ++ (if '0' ≤ a ∧ a ≤ '9' then [(a.toNat - '0'.toNat, b :: rest)] else [])
  | [a] => if '0' ≤ a ∧ a ≤ '9' then [(a.toNat - '0'.toNat, [])] else []
  | [] => []

/-- Regex match for the full pattern `%Y-%m-%d`, depth-first over the
alternative orders (what `re.match` produces); the remainder is whatever the
leftmost match did not consume. -/
def matchYmd (cs : List Char) : Option ((Nat × Nat × Nat) × List Char) := do
  let (y, r1) ← parse4Digits cs
  let r2 ← litChar '-' r1
  (monthCands r2).findSome? fun mc => do
    let r3 ← litChar '-' mc.2
    (dayCands r3).findSome? fun dc => some ((y, mc.1, dc.1), dc.2)

/-- Regex match for the full pattern `%Y-%m-%d %H`; the space in the format
matches a whitespace run (`\s+`), per CPython's `_strptime`. -/
def matchYmdH (cs : List Char) : Option ((Nat × Nat × Nat × Nat) × List Char) := do
  let (y, r1) ← parse4Digits cs
  let r2 ← litChar '-' r1
  (monthCands r2).findSome? fun mc => do
    let r3 ← litChar '-' mc.2
    (dayCands r3).findSome? fun dc => do
      let r4 ← wsRun1 dc.2
      (hourCands r4).findSome? fun hc => some ((y, mc.1, dc.1, hc.1), hc.2)

/-- Gregorian leap-year test. -/
def isLeap (y : Nat) : Bool := y % 4 = 0 && (y % 100 ≠ 0 || y % 400 = 0)

/-- Days in a month of a given year. -/
def daysInMonth (y m : Nat) : Nat :=
  if m = 2 then (if isLeap y then 29 else 28)
  else if m = 4 ∨ m = 6 ∨ m = 9 ∨ m = 11 then 30
  else 31

/-- Days in year `y` before the first of month `m`. -/
def daysBeforeMonth (y m : Nat) : Nat :=
  (List.range (m - 1)).foldl (fun acc i => acc + daysInMonth y (i + 1)) 0

/-- Days before January 1 of year `y` (proleptic Gregorian, year 1 based). -/
def daysBeforeYear (y : Nat) : Nat :=
  365 * (y - 1) + (y - 1) / 4 - (y - 1) / 100 + (y - 1) / 400

/-- Linearization of a civil date and hour to seconds. -/
def toSecs (y m d h : Nat) : Nat :=
  ((daysBeforeYear y + daysBeforeMonth y m + (d - 1)) * 24 + h) * 3600

/-- Linearization including minutes, for concrete `plan_time` values. -/
def mkTime (y m d h mi : Nat) : Nat := toSecs y m d h + mi * 60

/-- Embeds `datetime.strptime(s, "%Y-%m-%d %H")`: `none` is a ValueError
(pattern mismatch, unconverted trailing data, or an out-of-range date
rejected by the datetime constructor). -/
def strptimeYmdH (s : String) : Option DateTime :=
  match matchYmdH s.data with
  | some ((y, m, d, h), rest) =>
    if rest = [] ∧ 1 ≤ y ∧ d ≤ daysInMonth y m then some (toSecs y m d h) else none
  | none => none

/-- Embeds `datetime.strptime(s, "%Y-%m-%d")`. -/
def strptimeYmd (s : String) : Option DateTime :=
  match matchYmd s.data with
  | some ((y, m, d), rest) =>
    if rest = [] ∧ 1 ≤ y ∧ d ≤ daysInMonth y m then some (toSecs y m d 0) else none
  | none => none

/-- Embeds the filter pair `plan_time__gt=start, plan_time__lt=end` used by
the time-window routes: a NULL `plan_time` matches neither SQL comparison,
and both bounds are strict. -/
def planWindow (start stop : DateTime) (pt : Option DateTime) : Bool :=
  match pt with
  | some x => start < x && x < stop
  | none => false

/-- Embeds POST /create_user/ (`create_user`). Both length checks and their
detail string are verbatim from the handler. The handler then constructs
`UserModel(user_name=userDto.user_name, pwd=userDto.pwd)` — it stores the
supplied password string itself and never calls
`UserModel.generate_hash_password` — and returns the saved row, serialized
through `response_model=User` (id and user_name only). -/
def create_user (s : Store) (dto : UserDto) : Result User × Store :=
  if dto.user_name.length > 12 ∨ dto.user_name.length < 3 then
    (.httpErr 400 "min_length=3, max_length=12", s)
  else if dto.pwd.length > 12 ∨ dto.pwd.length < 3 then
    (.httpErr 400 "min_length=3, max_length=12", s)
  else
    let u : UserModel := { id := s.nextUserId, user_name := dto.user_name, pwd := dto.pwd }
    (.ok { id := u.id, user_name := u.user_name },
     { s with users := s.users ++ [u], nextUserId := s.nextUserId + 1 })

/-- Embeds `TagModel.objects.get_or_create(name=..., user=user)`: find the
(name, user) row, or insert a fresh one; no color is passed, so the inserted
row takes the model default color `'1111111'`. The insert is committed as it
happens (ormar saves immediately; there is no surrounding transaction). -/
def get_or_create_tag (s : Store) (name : String) (userId : Nat) : TagModel × Store :=
  match s.tags.find? fun t => t.name == name && t.user == userId with
  | some t => (t, s)
  | none =>
    let t : TagModel := { id := s.nextTagId, name := name, color := "1111111", user := userId }
    (t, { s with tags := s.tags ++ [t], nextTagId := s.nextTagId + 1 })

/-- Embeds POST /create_tag/ (`create_tag`): user check, then get-or-create
of the tag, then todo check, then the m2m link. The HTTPException raised for
a missing todo is not an `sqlite3.IntegrityError`, so the handler's `except`
clause does not catch it and the already-saved tag row persists. -/
def create_tag (s : Store) (dto : TagDto) : Result TagModel × Store :=
  match s.users.find? fun u => u.id == dto.user_id with
  | none => (.httpErr 400 "User does not exist!!!!!!!!", s)
  | some _ =>
    let tagAnd := get_or_create_tag s dto.name dto.user_id
    match tagAnd.2.todos.find? fun t => t.id == dto.todo_id with
    | none => (.httpErr 400 "Todo does not exist!", tagAnd.2)
    | some todo =>
      (.ok tagAnd.1, { tagAnd.2 with links := tagAnd.2.links ++ [(todo.id, tagAnd.1.id)] })

/-- Embeds GET /get_todos/ (`read_todos`). Count query and fetch query are
two separate expressions over the same `filter(user=user_id)` predicate,
exactly as in the handler; the fetch orders by `create_time` ascending.
Nothing in the modelled body can raise, so the handler's blanket
`except Exception` wrapper (→ 401) is unreachable here and the result is
always an envelope. -/
def read_todos (s : Store) (uid : Nat) (page per : Int) : Paginate TodoModel :=
  let skip := (page - 1) * per
  let total_items := (s.todos.filter fun t => t.user == uid).length
  let items :=
    sqlTake per (sqlDrop skip (sortByCreate (s.todos.filter fun t => t.user == uid)))
  { page := page, per_page := per, total_items := total_items, items := items }

/-- Detail string produced when `read_todos_by_user`'s `except Exception`
block re-raises the internal 404: the code attaches
`{"Access Denied": str(e)}`, and `str` of the HTTPException is its status
and detail. -/
def accessDenied404 : String :=
  "Access Denied: 404: User not found or no todos for this user"

/-- Body of the `try` block of GET /get_todos_by_user/{user_id}
(`read_todos_by_user`): filter by the authenticated user id, no ordering,
404 when the fetched page is empty. -/
def read_todos_by_user_try (s : Store) (uid : Nat) (page per : Int) :
    Result (Paginate TodoModel) :=
  let skip := (page - 1) * per
  let total_items := (s.todos.filter fun t => t.user == uid).length
  let items := sqlTake per (sqlDrop skip (s.todos.filter fun t => t.user == uid))
  if items = [] then .httpErr 404 "User not found or no todos for this user"
  else .ok { page := page, per_page := per, total_items := total_items, items := items }

/-- Embeds GET /get_todos_by_user/{user_id} (`read_todos_by_user`).
`pathUserId` is the `{user_id}` path segment: the handler's `user_id`
parameter is bound to `Depends(get_current_user_id)`, so FastAPI resolves it
from the token and the path value never reaches the handler body. The
blanket `except Exception` catches the internal HTTPException (including the
404 for an empty page) and re-raises it as 401. -/
def read_todos_by_user (s : Store) (pathUserId : Int) (uid : Nat) (page per : Int) :
    Result (Paginate TodoModel) :=
  match read_todos_by_user_try s uid page per with
  | .ok env => .ok env
  | .httpErr _ _ => .httpErr 401 accessDenied404
  | .pyErr m => .httpErr 401 ("Access Denied: " ++ m)

/-- Time-window parsing step of GET /get_todos_by_item_name/: `some tf`
means the `try` body reached the query with optional window `tf`; `none`
means `strptime` raised a ValueError inside the `try`. -/
def itemNameTimeWindow (plan_time_str : String) : Option (Option (DateTime × DateTime)) :=
  if plan_time_str.length = 13 then
    match strptimeYmdH plan_time_str with
    | some st => some (some (st, st + 3600))
    | none => none
  else if plan_time_str.length = 10 then
    match strptimeYmd plan_time_str with
    | some st => some (some (st, st + 86400))
    | none => none
  else some none

/-- Conjunctive filter set built by `get_todos_by_item_name`: owner, then
optionally the plan-time window, the case-insensitive item substring
(skipped for the empty string), the importance equality (only when the
supplied value is positive), and tag membership through the m2m join (only
when the supplied tag id is positive). -/
def itemNameQueryPred (s : Store) (uid : Nat) (item_name : String)
    (tf : Option (DateTime × DateTime)) (item_importance tag_id : Int)
    (t : TodoModel) : Bool :=
  t.user == uid
  && (match tf with
      | some (st, en) => planWindow st en t.plan_time
      | none => true)
  && (if item_name ≠ "" then strContainsCI t.item item_name else true)
  && (if item_importance > 0 then ((t.importance : Int) == item_importance) else true)
  && (if tag_id > 0 then s.links.any fun l => l.1 == t.id && ((l.2 : Int) == tag_id) else true)

/-- Embeds GET /get_todos_by_item_name/ (`get_todos_by_item_name`): both the
count and the fetch run over the same built-up `query`; a `strptime`
ValueError inside the `try` is caught by `except Exception` and surfaced as
HTTP 401. -/
def get_todos_by_item_name (s : Store) (uid : Nat) (page per : Int)
    (item_name plan_time_str : String) (item_importance tag_id : Int) :
    Result (Paginate TodoModel) :=
  match itemNameTimeWindow plan_time_str with
  | none => .httpErr 401 "ACCESS DENIED: ValueError"
  | some tf =>
    let matching := s.todos.filter (itemNameQueryPred s uid item_name tf item_importance tag_id)
    let total_items := matching.length
    let items := sqlTake per (sqlDrop ((page - 1) * per) matching)
    .ok { page := page, per_page := per, total_items := total_items, items := items }

/-- Embeds GET /get_tags_by_user/ (`get_tags_by_user`): count and fetch over
`filter(user=user_id)` on tags. -/
def get_tags_by_user (s : Store) (uid : Nat) (page per : Int) : Paginate TagModel :=
  let skip := (page - 1) * per
  let total_items := (s.tags.filter fun t => t.user == uid).length
  let items := sqlTake per (sqlDrop skip (s.tags.filter fun t => t.user == uid))
  { page := page, per_page := per, total_items := total_items, items := items }

/-- Embeds GET /get_todo_by_todo_id/{todo_id} (`get_todo_by_todo_id`). The
route resolves the authenticated user id (`uid`) as a dependency, but the
handler body never uses it: the lookup is by `id=todo_id` alone. -/
def get_todo_by_todo_id (s : Store) (uid : Nat) (todo_id : Nat) : Result TodoModel :=
  match s.todos.find? fun t => t.id == todo_id with
  | none => .httpErr 404 "Todo not found"
  | some t => .ok t

/-- Error raised by the ORM when a filter names `User`, which is not a field
of `TodoModel` (its field is lowercase `user` and ormar resolves filter
keywords by case-sensitive lookup); the exact message text is the ORM's. -/
def userFieldError : String :=
  "QueryDefinitionError: TodoModel has no field named User"

/-- Embeds GET /get_todos_by_plan_time/{plan_time_str}
(`get_todo_by_plan_time`). The dispatch is verbatim: literal "null", then
string length 13 (`%Y-%m-%d %H` parse), then length 10 (`%Y-%m-%d` parse),
else HTTPException 400. This handler has no `try` block, and every branch
that reaches a query crashes: the code filters with the keyword
`User=user_id` (capitalized), which names no field of `TodoModel`, so the
ORM raises before any row is read — an uncaught exception (`pyErr`),
surfaced as HTTP 500. A 13- or 10-character string that fails `strptime`
raises its uncaught ValueError even earlier. Only the wrong-length branch
produces an HTTP status (400) and no branch ever returns an envelope; the
store, identity and pagination arguments are never consumed. -/
def get_todo_by_plan_time (s : Store) (plan_time_str : String) (uid : Nat)
    (page per : Int) : Result (Paginate TodoModel) :=
  if plan_time_str = "null" then
    .pyErr userFieldError
  else if plan_time_str.length = 13 then
    match strptimeYmdH plan_time_str with
    | none => .pyErr "ValueError: time data does not match format %Y-%m-%d %H"
    | some _ => .pyErr userFieldError
  else if plan_time_str.length = 10 then
    match strptimeYmd plan_time_str with
    | none => .pyErr "ValueError: time data does not match format %Y-%m-%d"
    | some _ => .pyErr userFieldError
  else
    .httpErr 400 "Plan time format invalid!"

/-- Embeds POST /update_todos/{todo_id} (`update_todos`): 404 when the id is
absent; otherwise `item`, `content`, `importance` are overwritten
unconditionally, `plan_time` only when the DTO carried a non-empty value,
and the row is written back by id. -/
def update_todos (s : Store) (todo_id : Nat) (dto : UpdateTodoDto) :
    Result TodoModel × Store :=
  match s.todos.find? fun t => t.id == todo_id with
  | none => (.httpErr 404 "Todo not found", s)
  | some todo =>
    let todo' : TodoModel :=
      { todo with
        item := dto.item
        plan_time := match dto.plan_time with
          | some pt => some pt
          | none => todo.plan_time
        content := some dto.content
        importance := dto.importance.value }
    (.ok todo', { s with todos := s.todos.map fun t => if t.id == todo_id then todo' else t })

/-- Store with no rows (fresh database). -/
def emptyStore : Store :=
  { users := [], todos := [], tags := [], links := [], nextUserId := 1, nextTagId := 1 }

/-- Seed user 1. -/
def harry : UserModel := { id := 1, user_name := "Harry", pwd := "h" }

/-- Seed user 2. -/
def leo : UserModel := { id := 2, user_name := "Leo", pwd := "l" }

/-- A todo owned by user 2. -/
def todoOfLeo : TodoModel :=
  { id := 1, item := "Code", create_time := 0, plan_time := none, content := none,
    user := 2, importance := 0 }

/-- Store where todo 1 belongs to user 2 while user 1 is also registered. -/
def dbOtherOwner : Store :=
  { users := [harry, leo], todos := [todoOfLeo], links := [], tags := [],
    nextUserId := 3, nextTagId := 1 }

/-- A plain todo owned by user 1. -/
def todoPlain : TodoModel :=
  { id := 1, item := "Code", create_time := 5, plan_time := none, content := none,
    user := 1, importance := 0 }

/-- Store with one user and one todo of that user. -/
def dbUserTodo : Store :=
  { users := [harry], todos := [todoPlain], tags := [], links := [],
    nextUserId := 2, nextTagId := 1 }

/-- Store with one user and no todos. -/
def dbUserOnly : Store :=
  { users := [harry], todos := [], tags := [], links := [],
    nextUserId := 2, nextTagId := 1 }

/-- A todo scheduled at 2024-06-06T10:30:00. -/
def todoAt1030 : TodoModel :=
  { id := 1, item := "Meet", create_time := 0, plan_time := some (mkTime 2024 6 6 10 30),
    content := none, user := 1, importance := 0 }

/-- Store holding only `todoAt1030`. -/
def dbAt1030 : Store :=
  { users := [harry], todos := [todoAt1030], tags := [], links := [],
    nextUserId := 2, nextTagId := 1 }

/-- A todo scheduled exactly at 2024-06-06T10:00:00, the start of the window
parsed from "2024-06-06 10". -/
def todoAtWindowStart : TodoModel :=
  { id := 1, item := "Meet", create_time := 0, plan_time := some (toSecs 2024 6 6 10),
    content := none, user := 1, importance := 0 }

/-- Store holding only `todoAtWindowStart`. -/
def dbAtWindowStart : Store :=
  { users := [harry], todos := [todoAtWindowStart], tags := [], links := [],
    nextUserId := 2, nextTagId := 1 }

/-- Create-tag request naming a todo id that does not exist. -/
def missingTodoTag : TagDto :=
  { user_id := 1, todo_id := 5, name := "x", color := "#123456" }

/-- Create-tag request naming the existing user 1 and todo 1. -/
def tagDtoHarry : TagDto :=
  { user_id := 1, todo_id := 1, name := "work", color := "#123456" }

/-- Update request leaving `plan_time` empty. -/
def updDto : UpdateTodoDto :=
  { item := "New item", plan_time := none, content := "New content", importance := .LOW }

/-! Helper lemmas about the list-level building blocks. -/

theorem length_insertByCreate (t : TodoModel) (l : List TodoModel) :
    (insertByCreate t l).length = l.length + 1 := by
  induction l with
  | nil => rfl
  | cons u us ih =>
    simp only [insertByCreate]
    split
    · simp
    · simp [ih]

theorem length_sortByCreate (l : List TodoModel) :
    (sortByCreate l).length = l.length := by
  induction l with
  | nil => rfl
  | cons t ts ih => simp [sortByCreate, length_insertByCreate, ih]

theorem mem_insertByCreate {a t : TodoModel} {l : List TodoModel}
    (h : a ∈ insertByCreate t l) : a = t ∨ a ∈ l := by
  induction l with
  | nil => simpa [insertByCreate] using h
  | cons u us ih =>
    simp only [insertByCreate] at h
    split at h
    · exact List.mem_cons.mp h
    · rcases List.mem_cons.mp h with h1 | h2
      · exact Or.inr (by simp [h1])
      · rcases ih h2 with h3 | h4
        · exact Or.inl h3
        · exact Or.inr (List.mem_cons_of_mem _ h4)

theorem mem_sortByCreate {a : TodoModel} {l : List TodoModel}
    (h : a ∈ sortByCreate l) : a ∈ l := by
  induction l with
  | nil => simp [sortByCreate] at h
  | cons t ts ih =>
    simp only [sortByCreate] at h
    rcases mem_insertByCreate h with h1 | h2
    · simp [h1]
    · exact List.mem_cons_of_mem _ (ih h2)

theorem mem_sqlDrop {a : α} {off : Int} {l : List α} (h : a ∈ sqlDrop off l) : a ∈ l :=
  List.drop_subset _ _ h

theorem mem_sqlTake {a : α} {lim : Int} {l : List α} (h : a ∈ sqlTake lim l) : a ∈ l := by
  unfold sqlTake at h
  split at h
  · exact h
  · exact List.take_subset _ _ h

theorem get_or_create_tag_todos (s : Store) (n : String) (u : Nat) :
    (get_or_create_tag s n u).2.todos = s.todos := by
  unfold get_or_create_tag
  split <;> rfl

theorem get_or_create_tag_links (s : Store) (n : String) (u : Nat) :
    (get_or_create_tag s n u).2.links = s.links := by
  unfold get_or_create_tag
  split <;> rfl

theorem get_or_create_tag_users (s : Store) (n : String) (u : Nat) :
    (get_or_create_tag s n u).2.users = s.users := by
  unfold get_or_create_tag
  split <;> rfl

theorem get_or_create_tag_of_none (s : Store) (n : String) (u : Nat)
    (h : s.tags.find? (fun t => t.name == n && t.user == u) = none) :
    get_or_create_tag s n u =
      ({ id := s.nextTagId, name := n, color := "1111111", user := u },
       { s with
         tags := s.tags ++ [{ id := s.nextTagId, name := n, color := "1111111", user := u }],
         nextTagId := s.nextTagId + 1 }) := by
  unfold get_or_create_tag
  rw [h]

theorem length_sqlTake_sqlDrop {α : Type} (page per : Int) (l : List α)
    (h1 : 1 ≤ page) (h2 : 1 ≤ per) :
    ((sqlTake per (sqlDrop ((page - 1) * per) l)).length : Int)
      = min per (max 0 ((l.length : Int) - (page - 1) * per)) := by
  have hk : 0 ≤ (page - 1) * per := mul_nonneg (by omega) (by omega)
  have hpn : ¬ per < 0 := by omega
  unfold sqlTake sqlDrop
  simp only [if_neg hpn, List.length_take, List.length_drop]
  set k := (page - 1) * per with hkdef
  omega

/-- C2: register user. The length checks fail with HTTP 400 and the response
is the public view without the password, as the claim says; but on success
the stored user record holds the supplied password verbatim — `create_user`
never calls `UserModel.generate_hash_password` — so no salted hash is
computed, contradicting the claim and the handler's own login flow (a row
stored this way can never pass bcrypt verification). Evaluated here at the
failing input user_name "alice", pwd "password1". -/
theorem c2_plaintext_password_stored :
    create_user emptyStore { user_name := "alice", pwd := "password1" } =
      (.ok { id := 1, user_name := "alice" },
       { users := [{ id := 1, user_name := "alice", pwd := "password1" }],
         todos := [], tags := [], links := [], nextUserId := 2, nextTagId := 1 })
    ∧ (create_user emptyStore { user_name := "ab", pwd := "password1" }).1 =
        .httpErr 400 "min_length=3, max_length=12"
    ∧ (create_user emptyStore { user_name := "alice", pwd := "pw" }).1 =
        .httpErr 400 "min_length=3, max_length=12" := by
  decide

/-- C6 counterexample: with user 1 present, no todos and no tags, a create-tag
request naming the nonexistent todo 5 fails with 400 "Todo does not exist!"
but leaves a freshly created tag row behind — the store's tag table has
changed on the failure path, refuting the claim that the failure creates no
tag row. -/
theorem c6_counterexample :
    create_tag dbUserOnly missingTodoTag =
      (.httpErr 400 "Todo does not exist!",
       { users := [harry], todos := [],
         tags := [{ id := 1, name := "x", color := "1111111", user := 1 }],
         links := [], nextUserId := 2, nextTagId := 2 })
    ∧ (create_tag dbUserOnly missingTodoTag).2.tags ≠ dbUserOnly.tags := by
  decide

/-- C6 amended: create tag requires an existing user and an existing todo,
failing with HTTP 400 if either is missing. A missing user leaves the store
unchanged, but the operation is not atomic: when the user exists and the
todo does not, the (name, user) tag has already been get-or-created and
persists (a fresh row with the default color when none existed); only the
todo-tag association is never created. -/
theorem c6_amended_create_tag (s : Store) (dto : TagDto) :
    (s.users.find? (fun x => x.id == dto.user_id) = none →
       create_tag s dto = (.httpErr 400 "User does not exist!!!!!!!!", s))
    ∧ (∀ u, s.users.find? (fun x => x.id == dto.user_id) = some u →
        s.todos.find? (fun t => t.id == dto.todo_id) = none →
        create_tag s dto =
            (.httpErr 400 "Todo does not exist!", (get_or_create_tag s dto.name dto.user_id).2)
          ∧ (create_tag s dto).2.links = s.links
          ∧ (create_tag s dto).2.todos = s.todos
          ∧ (create_tag s dto).2.users = s.users
          ∧ (s.tags.find? (fun t => t.name == dto.name && t.user == dto.user_id) = none →
              (create_tag s dto).2.tags =
                s.tags ++ [{ id := s.nextTagId, name := dto.name, color := "1111111",
                             user := dto.user_id }])) := by
  constructor
  · intro h
    simp [create_tag, h]
  · intro u hu htodo
    have htodos := get_or_create_tag_todos s dto.name dto.user_id
    have heq : create_tag s dto =
        (.httpErr 400 "Todo does not exist!", (get_or_create_tag s dto.name dto.user_id).2) := by
      simp [create_tag, hu, htodos, htodo]
    refine ⟨heq, ?_, ?_, ?_, ?_⟩
    · rw [heq]
      exact get_or_create_tag_links s dto.name dto.user_id
    · rw [heq]
      exact htodos
    · rw [heq]
      exact get_or_create_tag_users s dto.name dto.user_id
    · intro hfresh
      rw [heq, get_or_create_tag_of_none s dto.name dto.user_id hfresh]

/-- C6 witness: instantiation of the amended theorem at the concrete store
with user 1 and no todos. -/
theorem c6_witness :
    create_tag dbUserOnly missingTodoTag =
      (.httpErr 400 "Todo does not exist!", (get_or_create_tag dbUserOnly "x" 1).2) :=
  (((c6_amended_create_tag dbUserOnly missingTodoTag).2 harry (by decide) (by decide))).1

/-- C9: in `read_todos_by_user`, an empty fetched page makes the try block
raise an internal HTTPException 404, which the handler's own blanket
`except Exception` catches and re-raises as HTTP 401; consequently no call
to this route ever surfaces a 404 status to the caller. -/
theorem c9_internal_404_surfaces_as_401 (s : Store) (pathUid : Int) (tok : Nat)
    (page per : Int) :
    (sqlTake per (sqlDrop ((page - 1) * per) (s.todos.filter fun t => t.user == tok)) = [] →
       read_todos_by_user_try s tok page per =
           .httpErr 404 "User not found or no todos for this user"
         ∧ read_todos_by_user s pathUid tok page per = .httpErr 401 accessDenied404)
    ∧ Result.statusOf (read_todos_by_user s pathUid tok page per) ≠ some 404 := by
  constructor
  · intro h
    have h404 : read_todos_by_user_try s tok page per =
        .httpErr 404 "User not found or no todos for this user" := by
      simp [read_todos_by_user_try, h]
    refine ⟨h404, ?_⟩
    simp [read_todos_by_user, h404]
  · rcases htry : read_todos_by_user_try s tok page per with env | ⟨st, d⟩ | m <;>
      simp [read_todos_by_user, htry, Result.statusOf]

/-- C9 witness: on an empty database every page is empty, and the route
answers 401, not 404. -/
theorem c9_witness :
    read_todos_by_user emptyStore 0 1 1 10 = .httpErr 401 accessDenied404 :=
  ((c9_internal_404_surfaces_as_401 emptyStore 0 1 1 10).1 (by decide)).2

/-- C10: create tag never reads the request body's color. When the
(name, user) tag does not yet exist, the row inserted by the get-or-create
carries the model default color '1111111', the returned tag (on the success
path) carries it too, and the whole operation's outcome is unchanged under
any substitution of the client-supplied color. -/
theorem c10_tag_color_defaulted (s : Store) (dto : TagDto) (c1 c2 : String) (u : UserModel)
    (hlen : dto.color.length = 7) (hc1 : c1.length = 7) (hc2 : c2.length = 7)
    (hu : s.users.find? (fun x => x.id == dto.user_id) = some u)
    (hfresh : s.tags.find? (fun t => t.name == dto.name && t.user == dto.user_id) = none) :
    (create_tag s dto).2.tags =
        s.tags ++ [{ id := s.nextTagId, name := dto.name, color := "1111111",
                     user := dto.user_id }]
    ∧ (∀ tg s', create_tag s dto = (.ok tg, s') → tg.color = "1111111")
    ∧ create_tag s { dto with color := c1 } = create_tag s { dto with color := c2 } := by
  have hgoc := get_or_create_tag_of_none s dto.name dto.user_id hfresh
  refine ⟨?_, ?_, rfl⟩
  · rcases htd : s.todos.find? (fun t => t.id == dto.todo_id) with _ | todo <;>
      simp [create_tag, hu, hgoc, htd]
  · intro tg s' h
    rcases htd : s.todos.find? (fun t => t.id == dto.todo_id) with _ | todo <;>
      simp [create_tag, hu, hgoc, htd] at h
    rcases h with ⟨h1, _⟩
    rw [← h1]

/-- C10 witness: instantiation at the store with user 1 and todo 1 and the
request supplying color "#123456"; the created row has color '1111111'. -/
theorem c10_witness :
    (create_tag dbUserTodo tagDtoHarry).2.tags =
      dbUserTodo.tags ++ [{ id := 1, name := "work", color := "1111111", user := 1 }] :=
  (c10_tag_color_defaulted dbUserTodo tagDtoHarry "#aaaaaa" "#bbbbbb" harry
    (by decide) (by decide) (by decide) (by decide) (by decide)).1

/-- C1 counterexample: with authenticated user 1 and todo 1 owned by user 2,
`get_todo_by_todo_id` returns user 2's todo — the claim that the route
returns a todo only if it is owned by the authenticated user is false. -/
theorem c1_counterexample :
    get_todo_by_todo_id dbOtherOwner 1 1 = .ok todoOfLeo ∧ todoOfLeo.user ≠ 1 := by
  decide

/-- C1 amended: `read_todos_by_user` is scoped to the token identity — its
result is independent of the client-supplied path user id and every returned
todo is owned by the token's user — but `get_todo_by_todo_id` performs no
ownership check at all: its result is independent of the authenticated
identity and it returns whichever todo has the requested id. -/
theorem c1_token_scoping (s : Store) (p1 p2 : Int) (tok tok2 : Nat) (page per : Int)
    (todo_id : Nat) :
    read_todos_by_user s p1 tok page per = read_todos_by_user s p2 tok page per
    ∧ (∀ env, read_todos_by_user s p1 tok page per = .ok env →
        ∀ t ∈ env.items, t.user = tok)
    ∧ get_todo_by_todo_id s tok todo_id = get_todo_by_todo_id s tok2 todo_id
    ∧ (∀ t, get_todo_by_todo_id s tok todo_id = .ok t → t.id = todo_id) := by
  refine ⟨rfl, ?_, rfl, ?_⟩
  · intro env henv t ht
    unfold read_todos_by_user at henv
    rcases htry : read_todos_by_user_try s tok page per with e | ⟨st, d⟩ | m <;>
      rw [htry] at henv
    · injection henv with h'
      subst h'
      simp only [read_todos_by_user_try] at htry
      split at htry
      · exact Result.noConfusion htry
      · injection htry with h''
        subst h''
        have hf := List.of_mem_filter (mem_sqlDrop (mem_sqlTake ht))
        simpa using hf
    · exact Result.noConfusion henv
    · exact Result.noConfusion henv
  · intro t h
    unfold get_todo_by_todo_id at h
    rcases hf : s.todos.find? (fun x => x.id == todo_id) with _ | t0 <;> rw [hf] at h
    · exact Result.noConfusion h
    · injection h with h'
      subst h'
      have := List.find?_some hf
      simpa using this

/-- C1 witness: in a store where user 1 owns todo 1, the amended scoping
theorem applied at the computed envelope shows the returned todo is owned by
the token's user. -/
theorem c1_witness : todoPlain.user = 1 :=
  (c1_token_scoping dbUserTodo 0 7 1 9 1 10 1).2.1
    { page := 1, per_page := 10, total_items := 1, items := [todoPlain] }
    (by decide) todoPlain (by decide)

/-- C7: update todo answers 404 and leaves the whole store unchanged when the
id is absent; when todo `t0` has the id, the result and the stored row are a
record overwriting `item`, `content`, `importance` with the request's values,
overwriting `plan_time` only when a non-empty value was supplied (otherwise
preserving `t0.plan_time`), and keeping `user`, `create_time` and `id`; the
other tables and all todos with a different id are untouched. -/
theorem c7_update_frame (s : Store) (todo_id : Nat) (dto : UpdateTodoDto) :
    (s.todos.find? (fun t => t.id == todo_id) = none →
       update_todos s todo_id dto = (.httpErr 404 "Todo not found", s))
    ∧ (∀ t0, s.todos.find? (fun t => t.id == todo_id) = some t0 →
       ∃ t', update_todos s todo_id dto =
             (.ok t', { s with todos := s.todos.map fun t => if t.id == todo_id then t' else t })
           ∧ t'.item = dto.item
           ∧ t'.content = some dto.content
           ∧ t'.importance = dto.importance.value
           ∧ (dto.plan_time = none → t'.plan_time = t0.plan_time)
           ∧ (∀ v, dto.plan_time = some v → t'.plan_time = some v)
           ∧ t'.user = t0.user
           ∧ t'.create_time = t0.create_time
           ∧ t'.id = t0.id
           ∧ (update_todos s todo_id dto).2.users = s.users
           ∧ (update_todos s todo_id dto).2.tags = s.tags
           ∧ (update_todos s todo_id dto).2.links = s.links
           ∧ (∀ u ∈ s.todos, (u.id == todo_id) = false →
               u ∈ (update_todos s todo_id dto).2.todos)) := by
  constructor
  · intro h
    simp [update_todos, h]
  · intro t0 h
    refine ⟨{ t0 with
              item := dto.item
              plan_time := match dto.plan_time with
                | some pt => some pt
                | none => t0.plan_time
              content := some dto.content
              importance := dto.importance.value }, ?_⟩
    have heq : update_todos s todo_id dto =
        (.ok { t0 with
               item := dto.item
               plan_time := match dto.plan_time with
                 | some pt => some pt
                 | none => t0.plan_time
               content := some dto.content
               importance := dto.importance.value },
         { s with todos := s.todos.map fun t =>
             if t.id == todo_id then
               { t0 with
                 item := dto.item
                 plan_time := match dto.plan_time with
                   | some pt => some pt
                   | none => t0.plan_time
                 content := some dto.content
                 importance := dto.importance.value }
             else t }) := by
      simp [update_todos, h]
    refine ⟨heq, rfl, rfl, rfl, ?_, ?_, rfl, rfl, rfl, ?_, ?_, ?_, ?_⟩
    · intro hpn
      simp [hpn]
    · intro v hpv
      simp [hpv]
    · rw [heq]
    · rw [heq]
    · rw [heq]
    · intro u hu hne
      rw [heq]
      have hm := List.mem_map_of_mem
        (fun t => if t.id == todo_id then
           { t0 with
             item := dto.item
             plan_time := match dto.plan_time with
               | some pt => some pt
               | none => t0.plan_time
             content := some dto.content
             importance := dto.importance.value }
         else t) hu
      simpa [hne] using hm

/-- C7 witness: updating the single todo of the concrete store leaves the
user table unchanged. -/
theorem c7_witness : (update_todos dbUserTodo 1 updDto).2.users = dbUserTodo.users := by
  obtain ⟨t', _, _, _, _, _, _, _, _, _, husers, _, _, _⟩ :=
    (c7_update_frame dbUserTodo 1 updDto).2 todoPlain (by decide)
  exact husers

/-- C3 counterexample: "2024-06-06 10" parses to the window start
2024-06-06T10:00:00, a todo scheduled exactly at that instant exists, and
the window filter — exercised through `get_todos_by_item_name`, the route
whose owner filter is well-formed — matches nothing: `plan_time` equal to
the window start is excluded, refuting the half-open-interval claim. -/
theorem c3_counterexample :
    strptimeYmdH "2024-06-06 10" = some (toSecs 2024 6 6 10)
    ∧ todoAtWindowStart.plan_time = some (toSecs 2024 6 6 10)
    ∧ get_todos_by_item_name dbAtWindowStart 1 1 10 "" "2024-06-06 10" (-1) (-1) =
        .ok { page := 1, per_page := 10, total_items := 0, items := [] } := by
  decide

/-- C3 amended: the scheduled-time window filter
(`plan_time__gt` / `plan_time__lt`) matches exactly the todos whose
plan_time lies strictly inside the open interval (start, end) — a plan_time
equal to start (or to end) is excluded. Through `get_todos_by_item_name`
the spec's concrete examples hold: a todo with plan_time 2024-06-06T10:30:00
is matched by the window of "2024-06-06 10" and of "2024-06-06", and not by
that of "2024-06-06 11". The dedicated plan-time route itself serves no
window request at all: its `User=user_id` filter names a nonexistent field,
so every parsed request dies in an uncaught ORM error. -/
theorem c3_amended_open_window :
    (∀ start stop : DateTime, ∀ pt : Option DateTime,
        planWindow start stop pt = true ↔ ∃ x, pt = some x ∧ start < x ∧ x < stop)
    ∧ get_todos_by_item_name dbAt1030 1 1 10 "" "2024-06-06 10" (-1) (-1) =
        .ok { page := 1, per_page := 10, total_items := 1, items := [todoAt1030] }
    ∧ get_todos_by_item_name dbAt1030 1 1 10 "" "2024-06-06" (-1) (-1) =
        .ok { page := 1, per_page := 10, total_items := 1, items := [todoAt1030] }
    ∧ get_todos_by_item_name dbAt1030 1 1 10 "" "2024-06-06 11" (-1) (-1) =
        .ok { page := 1, per_page := 10, total_items := 0, items := [] }
    ∧ get_todo_by_plan_time dbAt1030 "2024-06-06 10" 1 1 10 = .pyErr userFieldError := by
  refine ⟨?_, by decide, by decide, by decide, by decide⟩
  intro start stop pt
  cases pt with
  | none => simp [planWindow]
  | some x => simp [planWindow]

/-- C3 witness: the open-interval characterization applied at a concrete
matching instant. -/
theorem c3_witness : ∃ x, (some 7 : Option DateTime) = some x ∧ 5 < x ∧ x < 10 :=
  (c3_amended_open_window.1 5 10 (some 7)).mp (by decide)

/-- C4 counterexample: the 13-character string "aaaaaaaaaaaaa" fails to
parse, and the handler — having no try block — lets the ValueError escape:
the outcome is an uncaught exception, not the HTTP 400 the claim asserts. -/
theorem c4_counterexample :
    get_todo_by_plan_time emptyStore "aaaaaaaaaaaaa" 1 1 1 =
      .pyErr "ValueError: time data does not match format %Y-%m-%d %H"
    ∧ Result.statusOf (get_todo_by_plan_time emptyStore "aaaaaaaaaaaaa" 1 1 1) ≠ some 400 := by
  decide

/-- C4 amended: the dispatch on the input string is by the claimed cases —
literal "null", then length 13 parsed as YYYY-MM-DD HH, then length 10
parsed as YYYY-MM-DD, and every other length fails with HTTP 400 and detail
"Plan time format invalid!". But only that 400 branch produces an HTTP
status: a 13- or 10-character string that fails to parse raises an uncaught
ValueError, and the "null" branch and the successfully parsed branches also
die in an uncaught ORM error, because the handler's queries filter on the
nonexistent field `User`; no request to this route is ever served an
envelope. -/
theorem c4_amended_dispatch (s : Store) (str : String) (uid : Nat) (page per : Int) :
    (str = "null" →
       get_todo_by_plan_time s str uid page per = .pyErr userFieldError)
    ∧ (str ≠ "null" → str.length = 13 → ∀ st, strptimeYmdH str = some st →
       get_todo_by_plan_time s str uid page per = .pyErr userFieldError)
    ∧ (str ≠ "null" → str.length = 13 → strptimeYmdH str = none →
       get_todo_by_plan_time s str uid page per =
         .pyErr "ValueError: time data does not match format %Y-%m-%d %H")
    ∧ (str ≠ "null" → str.length ≠ 13 → str.length = 10 → ∀ st, strptimeYmd str = some st →
       get_todo_by_plan_time s str uid page per = .pyErr userFieldError)
    ∧ (str ≠ "null" → str.length ≠ 13 → str.length = 10 → strptimeYmd str = none →
       get_todo_by_plan_time s str uid page per =
         .pyErr "ValueError: time data does not match format %Y-%m-%d")
    ∧ (str ≠ "null" → str.length ≠ 13 → str.length ≠ 10 →
       get_todo_by_plan_time s str uid page per =
         .httpErr 400 "Plan time format invalid!")
    ∧ (∀ env, get_todo_by_plan_time s str uid page per ≠ .ok env) := by
  refine ⟨?_, ?_, ?_, ?_, ?_, ?_, ?_⟩
  · intro h
    subst h
    simp [get_todo_by_plan_time]
  · intro hne h13 st hst
    simp [get_todo_by_plan_time, hne, h13, hst]
  · intro hne h13 hst
    simp [get_todo_by_plan_time, hne, h13, hst]
  · intro hne h13 h10 st hst
    simp [get_todo_by_plan_time, hne, h13, h10, hst]
  · intro hne h13 h10 hst
    simp [get_todo_by_plan_time, hne, h13, h10, hst]
  · intro hne h13 h10
    simp [get_todo_by_plan_time, hne, h13, h10]
  · intro env
    unfold get_todo_by_plan_time
    split_ifs with h1 h2 h3
    · exact fun hcon => Result.noConfusion hcon
    · cases strptimeYmdH str <;> exact fun hcon => Result.noConfusion hcon
    · cases strptimeYmd str <;> exact fun hcon => Result.noConfusion hcon
    · exact fun hcon => Result.noConfusion hcon

/-- C4 witness: a 3-character input hits the final branch and fails with
HTTP 400 "Plan time format invalid!". -/
theorem c4_witness :
    get_todo_by_plan_time emptyStore "abc" 1 1 1 =
      .httpErr 400 "Plan time format invalid!" :=
  (c4_amended_dispatch emptyStore "abc" 1 1 1).2.2.2.2.2.1 (by decide) (by decide) (by decide)

/-- C5: count query and fetch query share the same predicate set, so
`total_items` equals the exact number of stored todos satisfying the
predicates — independent of page and per_page — and every fetched item
satisfies the same predicate. Shown for `read_todos` (owner predicate) and
for `get_todos_by_item_name` (full conjunctive filter set). -/
theorem c5_total_items_exact (s : Store) (uid : Nat) (page per : Int)
    (item_name plan_time_str : String) (imp tag_id : Int) :
    (read_todos s uid page per).total_items = (s.todos.filter fun t => t.user == uid).length
    ∧ (∀ t ∈ (read_todos s uid page per).items, (t.user == uid) = true)
    ∧ (∀ tf env, itemNameTimeWindow plan_time_str = some tf →
        get_todos_by_item_name s uid page per item_name plan_time_str imp tag_id = .ok env →
        env.total_items =
            (s.todos.filter (itemNameQueryPred s uid item_name tf imp tag_id)).length
          ∧ ∀ t ∈ env.items, itemNameQueryPred s uid item_name tf imp tag_id t = true) := by
  refine ⟨rfl, ?_, ?_⟩
  · intro t ht
    simp only [read_todos] at ht
    have hm : t ∈ List.filter (fun x => x.user == uid) s.todos :=
      mem_sortByCreate (mem_sqlDrop (mem_sqlTake ht))
    have h2 := List.of_mem_filter hm
    exact h2
  · intro tf env htf hok
    simp only [get_todos_by_item_name, htf] at hok
    injection hok with h'
    subst h'
    refine ⟨rfl, ?_⟩
    intro t ht
    exact List.of_mem_filter (mem_sqlDrop (mem_sqlTake ht))

/-- C5 witness: in the concrete store, the one fetched todo satisfies the
owner predicate. -/
theorem c5_witness : (todoPlain.user == 1) = true :=
  (c5_total_items_exact dbUserTodo 1 1 10 "" "" (-1) (-1)).2.1 todoPlain (by decide)

/-- C8: for page ≥ 1 and per_page ≥ 1 the envelope echoes page and per_page
and the fetch skips (page-1)*per_page matching rows and returns at most
per_page, so the number of items is min(per_page, max(0, total_items -
(page-1)*per_page)); shown for `read_todos` and for every envelope returned
by `read_todos_by_user`. -/
theorem c8_pagination_formula (s : Store) (uid : Nat) (page per : Int)
    (h1 : 1 ≤ page) (h2 : 1 ≤ per) :
    (read_todos s uid page per).page = page
    ∧ (read_todos s uid page per).per_page = per
    ∧ ((read_todos s uid page per).items.length : Int)
        = min per (max 0 (((read_todos s uid page per).total_items : Int) - (page - 1) * per))
    ∧ (∀ pathUid env, read_todos_by_user s pathUid uid page per = .ok env →
        (env.items.length : Int)
          = min per (max 0 ((env.total_items : Int) - (page - 1) * per))) := by
  refine ⟨rfl, rfl, ?_, ?_⟩
  · have hcore := length_sqlTake_sqlDrop page per
      (sortByCreate (s.todos.filter fun t => t.user == uid)) h1 h2
    simp only [read_todos]
    rw [hcore, length_sortByCreate]
  · intro pathUid env henv
    unfold read_todos_by_user at henv
    rcases htry : read_todos_by_user_try s uid page per with e | ⟨st, d⟩ | m <;>
      rw [htry] at henv
    · injection henv with h'
      subst h'
      simp only [read_todos_by_user_try] at htry
      split at htry
      · exact Result.noConfusion htry
      · injection htry with h''
        subst h''
        exact length_sqlTake_sqlDrop page per (s.todos.filter fun t => t.user == uid) h1 h2
    · exact Result.noConfusion henv
    · exact Result.noConfusion henv

/-- C8 witness: page 1 of size 5 over the one-todo store satisfies the item
count formula. -/
theorem c8_witness :
    ((read_todos dbUserTodo 1 1 5).items.length : Int) =
      min 5 (max 0 (((read_todos dbUserTodo 1 1 5).total_items : Int) - (1 - 1) * 5)) :=
  (c8_pagination_formula dbUserTodo 1 1 5 (by decide) (by decide)).2.2.1

end TodoApp
